import Mathlib

/-!
Shallow embedding of the AI-Academy-Dashboard client auth provider
(`AuthProvider` in the unnamed client file) and of the server-side
Supabase client construction (`src/lib/supabase-server.ts`).

The remote backend (Supabase) is external: each point query is modelled as
a function that either returns zero-or-one rows (`Except.ok`) or throws
(`Except.error ()`).  Functions that issue queries additionally return the
list of queries they issued, so that ordering / skipping / fire-and-forget
properties can be stated.  JavaScript truthiness tests on optional strings
(`if (authUser.email)`, `!participantData.auth_user_id`) are rendered by
`truthy`, which treats the empty string like `undefined`.
-/

namespace Dash

/-- JS truthiness of an optional string: `undefined`/`null`/`""` are falsy. -/
def truthy : Option String → Option String
  | none => none
  | some s => if s.isEmpty then none else some s

/-- Internal participant row (fields used by the auth provider). -/
structure Participant where
  id : String
  auth_user_id : Option String
  email : Option String
  github_username : Option String
  is_admin : Option Bool
deriving DecidableEq

/-- Validated external user identity: `id`, optional `email`,
optional `user_metadata?.user_name`. -/
structure User where
  id : String
  email : Option String
  user_name : Option String
deriving DecidableEq

/-- Opaque session bundle; `session.user` may be absent
(the listener checks `newSession?.user`). -/
structure Session where
  token : String
  user : Option User
deriving DecidableEq

/-- Active admin-grant row in `admin_users` (`is_active = true` is part of
the query, so a returned row is an active grant). -/
structure AdminGrant where
  user_id : String
deriving DecidableEq

/-- Derived profile status; the provider publishes
`'approved'`, `'no_profile'` or `null` (`Option UserStatus`). -/
inductive UserStatus where
  | approved
  | no_profile
deriving DecidableEq

/-- A point query / update issued against the backend, recorded for
observability of order and of fire-and-forget writes. -/
inductive Query where
  | qEmail (email : String)
  | qHandle (handle : String)
  | qAuthId (authUserId : String)
  | qAdmin (userId : String)
  | qBackfill (participantId : String) (authUserId : String)
deriving DecidableEq

/-- The remote backend: each field is one of the point lookups the provider
issues.  `Except.ok r` is a completed query returning zero or one rows;
`Except.error ()` is a thrown exception (network failure etc.).
`backfillResult` is the outcome of the fire-and-forget link update; the
provider never reads it. -/
structure Backend where
  byEmail : String → Except Unit (Option Participant)
  byHandle : String → Except Unit (Option Participant)
  byAuthId : String → Except Unit (Option Participant)
  activeAdminGrant : String → Except Unit (Option AdminGrant)
  backfillResult : String → String → Except Unit Unit

/-- Third lookup strategy of `fetchParticipant` (lines 76-84): by
`auth_user_id`.  An exception lands in the surrounding catch (line 85),
which also returns `null`. -/
def tryAuthId (db : Backend) (authUser : User) (log : List Query) :
    Option Participant × List Query :=
  match db.byAuthId authUser.id with
  | .error _ => (none, log ++ [Query.qAuthId authUser.id])
  | .ok (some p) => (some p, log ++ [Query.qAuthId authUser.id])
  | .ok none => (none, log ++ [Query.qAuthId authUser.id])

/-- Second lookup strategy of `fetchParticipant` (lines 66-74): by
`github_username`, guarded by truthiness of `user_metadata?.user_name`. -/
def tryHandle (db : Backend) (authUser : User) (log : List Query) :
    Option Participant × List Query :=
  match truthy authUser.user_name with
  | none => tryAuthId db authUser log
  | some h =>
    match db.byHandle h with
    | .error _ => (none, log ++ [Query.qHandle h])
    | .ok (some p) => (some p, log ++ [Query.qHandle h])
    | .ok none => tryAuthId db authUser (log ++ [Query.qHandle h])

/-- `fetchParticipant` (lines 54-89): try by email, then by handle, then by
`auth_user_id`; first match wins; any thrown exception is caught and yields
`null`.  The second component is the list of queries actually issued. -/
def fetchParticipant (db : Backend) (authUser : User) :
    Option Participant × List Query :=
  match truthy authUser.email with
  | none => tryHandle db authUser []
  | some e =>
    match db.byEmail e with
    | .error _ => (none, [Query.qEmail e])
    | .ok (some p) => (some p, [Query.qEmail e])
    | .ok none => tryHandle db authUser [Query.qEmail e]

/-- `checkAdminUser` (lines 92-104): `true` iff the active-grant lookup
returns a row; any exception is caught and yields `false`. -/
def checkAdminUser (db : Backend) (userId : String) : Bool :=
  match db.activeAdminGrant userId with
  | .error _ => false
  | .ok (some _) => true
  | .ok none => false

/-- The published provider state (the React state hooks, lines 41-47). -/
structure AuthState where
  user : Option User
  session : Option Session
  participant : Option Participant
  isLoading : Bool
  isActualAdmin : Bool
  viewAsUser : Bool
  userStatus : Option UserStatus
deriving DecidableEq

/-- Initial provider state: everything unset, `isLoading = true`. -/
def initialState : AuthState :=
  { user := none, session := none, participant := none, isLoading := true,
    isActualAdmin := false, viewAsUser := false, userStatus := none }

/-- Line 50: `const isAdmin = isActualAdmin && !viewAsUser;` — derived on
every render, never stored. -/
def isAdmin (s : AuthState) : Bool := s.isActualAdmin && !s.viewAsUser

/-- `setViewAsUser` exposed through the context (line 16). -/
def setViewAsUser (v : Bool) (s : AuthState) : AuthState :=
  { s with viewAsUser := v }

/-- The action of the safety timer callback (lines 122-125) when it fires:
it publishes `isLoading = false` and nothing else. -/
def safetyTimeoutFire (s : AuthState) : AuthState := { s with isLoading := false }

/-- The safety timer delay passed to `setTimeout` (line 125), in ms. -/
def safetyTimeoutDelayMs : Nat := 10000

/-- Outcome of one `initAuth` run: the state it published, the backend
queries it issued, and whether `clearTimeout(safetyTimeout)` ran. -/
structure InitResult where
  state : AuthState
  log : List Query
  timerCancelled : Bool
deriving DecidableEq

/-- Tail of `initAuth` (lines 171-183): the `admin_users` check, then the
`finally` block (`setIsLoading(false); clearTimeout(safetyTimeout)`). -/
def finishInit (db : Backend) (validatedUser : User) (s : AuthState)
    (log : List Query) : InitResult :=
  let s3 :=
    if checkAdminUser db validatedUser.id then
      { s with isActualAdmin := true, userStatus := some .approved }
    else s
  { state := { s3 with isLoading := false },
    log := log ++ [Query.qAdmin validatedUser.id],
    timerCancelled := true }

/-- `initAuth` (lines 127-184).  `getSessionResult` / `getUserResult` model
`supabase.auth.getSession()` / `supabase.auth.getUser()`: `.ok none` is the
no-session / validation-failed answer, `.error ()` a thrown exception
(caught at line 178; the `finally` block runs on every path). -/
def initAuth (db : Backend) (getSessionResult : Except Unit (Option Session))
    (getUserResult : Except Unit (Option User)) (s0 : AuthState) : InitResult :=
  match getSessionResult with
  | .error _ =>
    { state := { s0 with isLoading := false }, log := [], timerCancelled := true }
  | .ok none =>
    { state := { s0 with isLoading := false }, log := [], timerCancelled := true }
  | .ok (some initialSession) =>
    match getUserResult with
    | .error _ =>
      { state := { s0 with isLoading := false }, log := [], timerCancelled := true }
    | .ok none =>
      { state := { s0 with isLoading := false }, log := [], timerCancelled := true }
    | .ok (some validatedUser) =>
      let s1 := { s0 with session := some initialSession, user := some validatedUser }
      let fetched := fetchParticipant db validatedUser
      match fetched.1 with
      | some p =>
        let s2 := { s1 with participant := some p, userStatus := some .approved,
                            isActualAdmin := p.is_admin.getD false }
        let backfill :=
          if truthy p.auth_user_id = none then
            [Query.qBackfill p.id validatedUser.id]
          else []
        finishInit db validatedUser s2 (fetched.2 ++ backfill)
      | none =>
        finishInit db validatedUser { s1 with userStatus := some .no_profile } fetched.2

/-- The two auth-state events the listener reacts to; everything else
falls through the callback unhandled. -/
inductive AuthEvent where
  | signedOut
  | signedIn
  | other
deriving DecidableEq

/-- The `onAuthStateChange` callback (lines 189-224).  `SIGNED_OUT` clears
state synchronously and issues no queries; `SIGNED_IN` with a session user
publishes session and user, then re-runs participant lookup and the admin
check (its try/catch cannot fire: both helpers swallow their own errors). -/
def onAuthChange (db : Backend) (event : AuthEvent) (newSession : Option Session)
    (s0 : AuthState) : AuthState × List Query :=
  match event with
  | .signedOut =>
    ({ s0 with session := none, user := none, participant := none,
               isActualAdmin := false, userStatus := none }, [])
  | .signedIn =>
    match newSession with
    | none => (s0, [])
    | some ns =>
      match ns.user with
      | none => (s0, [])
      | some u =>
        let s1 := { s0 with session := some ns, user := some u }
        let fetched := fetchParticipant db u
        let s2 :=
          match fetched.1 with
          | some p => { s1 with participant := some p, userStatus := some .approved,
                                isActualAdmin := p.is_admin.getD false }
          | none => { s1 with userStatus := some .no_profile }
        let s3 :=
          if checkAdminUser db u.id then
            { s2 with isActualAdmin := true, userStatus := some .approved }
          else s2
        (s3, fetched.2 ++ [Query.qAdmin u.id])
  | .other => (s0, [])

/-- `signOut` (lines 233-240): the remote call returns `{ error }` (the SDK
surfaces network failure as a returned error object, never a rejection);
the provider ignores it and clears local state unconditionally. -/
def signOut (_remoteError : Option String) (s0 : AuthState) : AuthState :=
  { s0 with user := none, session := none, participant := none,
            isActualAdmin := false, userStatus := none }

/-- `refreshParticipant` (lines 106-115): re-runs `fetchParticipant` for the
current user, updating state only when a participant is found; silent no-op
when no user is set. -/
def refreshParticipant (db : Backend) (s0 : AuthState) : AuthState × List Query :=
  match s0.user with
  | none => (s0, [])
  | some u =>
    let fetched := fetchParticipant db u
    match fetched.1 with
    | some p =>
      ({ s0 with participant := some p, userStatus := some .approved,
                 isActualAdmin := p.is_admin.getD false }, fetched.2)
    | none => (s0, fetched.2)

/-- One externally triggerable operation on the provider state. -/
inductive Op where
  | init (db : Backend) (gs : Except Unit (Option Session))
      (gu : Except Unit (Option User))
  | authEvent (db : Backend) (event : AuthEvent) (ns : Option Session)
  | doSignOut (remoteError : Option String)
  | refresh (db : Backend)
  | setView (v : Bool)

/-- Apply one operation to the provider state. -/
def applyOp (op : Op) (s : AuthState) : AuthState :=
  match op with
  | .init db gs gu => (initAuth db gs gu s).state
  | .authEvent db event ns => (onAuthChange db event ns s).1
  | .doSignOut r => signOut r s
  | .refresh db => (refreshParticipant db s).1
  | .setView v => setViewAsUser v s

/-- A reachable state: any sequence of operations from a start state. -/
def runOps (ops : List Op) (s : AuthState) : AuthState :=
  ops.foldl (fun st op => applyOp op st) s

/-- What `createServerClient` is handed in `supabase-server.ts`
(cookie plumbing is out of scope). -/
structure SupabaseClient where
  url : String
  anonKey : String
deriving DecidableEq

/-- The error message thrown by `getRequiredEnv` (lines 7-9 of
`supabase-server.ts`). -/
def missingEnvMsg (name : String) : String :=
  "Missing env: " ++ name ++
    ". Set it in Vercel → Project → Settings → Environment Variables."

/-- JavaScript `String.prototype.trim`: strip leading and trailing
whitespace. -/
def jsTrim (s : String) : String :=
  ⟨(((s.data.dropWhile Char.isWhitespace).reverse.dropWhile
      Char.isWhitespace).reverse)⟩

/-- `getRequiredEnv` (lines 4-12 of `supabase-server.ts`): `process.env` is
modelled as `env : String → Option String`; `!value?.trim()` is truthy when
the variable is unset or trims to the empty string. -/
def getRequiredEnv (env : String → Option String) (name : String) :
    Except String String :=
  match env name with
  | none => .error (missingEnvMsg name)
  | some v => if jsTrim v = "" then .error (missingEnvMsg name) else .ok v

/-- `createServerSupabaseClient` (lines 15-40 of `supabase-server.ts`):
reads both required variables (URL first), throwing on the first missing
one, and otherwise returns the configured client. -/
def createServerSupabaseClient (env : String → Option String) :
    Except String SupabaseClient := do
  let url ← getRequiredEnv env "NEXT_PUBLIC_SUPABASE_URL"
  let anonKey ← getRequiredEnv env "NEXT_PUBLIC_SUPABASE_ANON_KEY"
  return { url := url, anonKey := anonKey }

/-- Claim C1: at every point in the provider's lifetime the exposed
`isAdmin` flag equals `isActualAdmin && !viewAsUser`; for every reachable
state, `isAdmin` cannot be true while `isActualAdmin` is false, and setting
`viewAsUser` to true can only lower the exposed admin status (it makes
`isAdmin` false). -/
theorem C1_isAdmin_invariant (ops : List Op) :
    isAdmin (runOps ops initialState) =
      ((runOps ops initialState).isActualAdmin && !(runOps ops initialState).viewAsUser)
    ∧ (isAdmin (runOps ops initialState)
        && !(runOps ops initialState).isActualAdmin) = false
    ∧ isAdmin (applyOp (Op.setView true) (runOps ops initialState)) = false := by
  refine ⟨rfl, ?_, ?_⟩
  · cases h : (runOps ops initialState).isActualAdmin <;> simp [isAdmin, h]
  · simp [isAdmin, applyOp, setViewAsUser]

/-- Claim C6: whatever the remote sign-out call returned, `signOut` leaves
user, session, participant unset, `isActualAdmin` false and `userStatus`
null; the local clear is independent of the remote outcome and idempotent. -/
theorem C6_signOut_clears (r r2 : Option String) (s : AuthState) :
    (signOut r s).user = none ∧ (signOut r s).session = none
    ∧ (signOut r s).participant = none ∧ (signOut r s).isActualAdmin = false
    ∧ (signOut r s).userStatus = none
    ∧ signOut r s = signOut r2 s
    ∧ signOut r (signOut r2 s) = signOut r s :=
  ⟨rfl, rfl, rfl, rfl, rfl, rfl, rfl⟩

lemma initAuth_timerCancelled (db : Backend) (gs : Except Unit (Option Session))
    (gu : Except Unit (Option User)) (s0 : AuthState) :
    (initAuth db gs gu s0).timerCancelled = true := by
  match gs with
  | .error _ => rfl
  | .ok none => rfl
  | .ok (some sess) =>
    match gu with
    | .error _ => rfl
    | .ok none => rfl
    | .ok (some u) =>
      simp only [initAuth]
      cases hf : (fetchParticipant db u).1 <;> simp [hf, finishInit]

lemma initAuth_isLoading (db : Backend) (gs : Except Unit (Option Session))
    (gu : Except Unit (Option User)) (s0 : AuthState) :
    (initAuth db gs gu s0).state.isLoading = false := by
  match gs with
  | .error _ => rfl
  | .ok none => rfl
  | .ok (some sess) =>
    match gu with
    | .error _ => rfl
    | .ok none => rfl
    | .ok (some u) =>
      simp only [initAuth]
      cases hf : (fetchParticipant db u).1 <;> simp [hf, finishInit]

/-- Claim C7: the safety timer's callback publishes `isLoading = false`
(its window is the 10-second delay handed to `setTimeout`), and every
completion path of `initAuth` — no-session exit, validation-failure exit,
success, or caught exception — both cancels the timer and has already
published `isLoading = false`, so a cancelled timer never fires after
completion. -/
theorem C7_safety_timer (db : Backend) (gs : Except Unit (Option Session))
    (gu : Except Unit (Option User)) (s0 s : AuthState) :
    (safetyTimeoutFire s).isLoading = false
    ∧ safetyTimeoutDelayMs = 10 * 1000
    ∧ (initAuth db gs gu s0).timerCancelled = true
    ∧ (initAuth db gs gu s0).state.isLoading = false :=
  ⟨rfl, rfl, initAuth_timerCancelled db gs gu s0, initAuth_isLoading db gs gu s0⟩

/-- Claim C9: `createServerSupabaseClient` fails fast on missing
configuration.  If `NEXT_PUBLIC_SUPABASE_URL` is unset or whitespace-only it
throws the error naming that variable; if the URL is present but
`NEXT_PUBLIC_SUPABASE_ANON_KEY` is unset or whitespace-only it throws the
error naming the key; with both present it returns the configured client;
and the thrown message always starts with `Missing env: <name>`. -/
theorem C9_server_client_config (env : String → Option String) :
    ((env "NEXT_PUBLIC_SUPABASE_URL" = none ∨
        (∃ v, env "NEXT_PUBLIC_SUPABASE_URL" = some v ∧ jsTrim v = "")) →
      createServerSupabaseClient env =
        .error (missingEnvMsg "NEXT_PUBLIC_SUPABASE_URL"))
    ∧ (∀ vu, env "NEXT_PUBLIC_SUPABASE_URL" = some vu → jsTrim vu ≠ "" →
        (env "NEXT_PUBLIC_SUPABASE_ANON_KEY" = none ∨
          (∃ v, env "NEXT_PUBLIC_SUPABASE_ANON_KEY" = some v ∧ jsTrim v = "")) →
        createServerSupabaseClient env =
          .error (missingEnvMsg "NEXT_PUBLIC_SUPABASE_ANON_KEY"))
    ∧ (∀ vu vk, env "NEXT_PUBLIC_SUPABASE_URL" = some vu → jsTrim vu ≠ "" →
        env "NEXT_PUBLIC_SUPABASE_ANON_KEY" = some vk → jsTrim vk ≠ "" →
        createServerSupabaseClient env = .ok { url := vu, anonKey := vk })
    ∧ (∀ name, ∃ rest, missingEnvMsg name = "Missing env: " ++ name ++ rest) := by
  refine ⟨?_, ?_, ?_, fun name => ⟨_, rfl⟩⟩
  · rintro (h | ⟨v, hv, htrim⟩) <;>
      simp [createServerSupabaseClient, getRequiredEnv, Bind.bind, Except.bind, *]
  · rintro vu hu hut (h | ⟨v, hv, htrim⟩) <;>
      simp [createServerSupabaseClient, getRequiredEnv, Bind.bind, Except.bind, *]
  · intro vu vk hu hut hk hkt
    simp [createServerSupabaseClient, getRequiredEnv, Bind.bind, Except.bind,
      Functor.map, Except.map, pure, Except.pure, *]

/-- Witness for C9 at concrete environments: an empty environment throws the
URL error, and an environment carrying both variables returns the client. -/
theorem C9_server_client_config_witness :
    createServerSupabaseClient (fun _ => none) =
      .error (missingEnvMsg "NEXT_PUBLIC_SUPABASE_URL")
    ∧ createServerSupabaseClient
        (fun n => if n = "NEXT_PUBLIC_SUPABASE_URL" then some "https://u" else some "k") =
      .ok { url := "https://u", anonKey := "k" } :=
  ⟨(C9_server_client_config (fun _ => none)).1 (Or.inl rfl),
   (C9_server_client_config _).2.2.1 "https://u" "k" (by simp) (by decide)
      (by simp) (by decide)⟩

/-- The email strategy concluded nothing: the identity has no (truthy)
email, or the email lookup completed and returned no row. -/
def emailMiss (db : Backend) (u : User) : Prop :=
  truthy u.email = none ∨ ∃ e, truthy u.email = some e ∧ db.byEmail e = .ok none

/-- The handle strategy concluded nothing: no (truthy) handle, or the
handle lookup completed and returned no row. -/
def handleMiss (db : Backend) (u : User) : Prop :=
  truthy u.user_name = none ∨
    ∃ h, truthy u.user_name = some h ∧ db.byHandle h = .ok none

lemma tryAuthId_none_iff (db : Backend) (u : User) (log : List Query)
    (hni : ∃ r, db.byAuthId u.id = .ok r) :
    (tryAuthId db u log).1 = none ↔ db.byAuthId u.id = .ok none := by
  obtain ⟨r, hr⟩ := hni
  cases r <;> simp [tryAuthId, hr]

lemma tryHandle_none_iff (db : Backend) (u : User) (log : List Query)
    (hnh : ∀ h, ∃ r, db.byHandle h = .ok r)
    (hni : ∃ r, db.byAuthId u.id = .ok r) :
    (tryHandle db u log).1 = none ↔
      handleMiss db u ∧ db.byAuthId u.id = .ok none := by
  cases hh : truthy u.user_name with
  | none =>
    simp [tryHandle, hh, handleMiss, tryAuthId_none_iff db u log hni]
  | some h =>
    obtain ⟨rh, hrh⟩ := hnh h
    cases rh with
    | some p => simp [tryHandle, hh, hrh, handleMiss]
    | none =>
      simp [tryHandle, hh, hrh, handleMiss,
        tryAuthId_none_iff db u (log ++ [Query.qHandle h]) hni]

/-- Claim C2: `fetchParticipant` tries email, then handle, then linked
identifier, in that order; each strategy runs only when its datum is
present; the first match is returned and the remaining strategies are
skipped; and (when no lookup throws) the result is `null` exactly when no
strategy matches. -/
theorem C2_lookup_order (db : Backend) (u : User) :
    (∀ e p, truthy u.email = some e → db.byEmail e = .ok (some p) →
      fetchParticipant db u = (some p, [Query.qEmail e]))
    ∧ (∀ h p, emailMiss db u → truthy u.user_name = some h →
        db.byHandle h = .ok (some p) →
        (fetchParticipant db u).1 = some p ∧
          Query.qAuthId u.id ∉ (fetchParticipant db u).2)
    ∧ (∀ p, emailMiss db u → handleMiss db u →
        db.byAuthId u.id = .ok (some p) → (fetchParticipant db u).1 = some p)
    ∧ ((∀ e, ∃ r, db.byEmail e = .ok r) → (∀ h, ∃ r, db.byHandle h = .ok r) →
        (∃ r, db.byAuthId u.id = .ok r) →
        ((fetchParticipant db u).1 = none ↔
          emailMiss db u ∧ handleMiss db u ∧ db.byAuthId u.id = .ok none)) := by
  refine ⟨?_, ?_, ?_, ?_⟩
  · intro e p he hbe
    simp [fetchParticipant, he, hbe]
  · rintro h p (hem | ⟨e, he, hbe⟩) hh hbh <;>
      simp [fetchParticipant, tryHandle, *]
  · rintro p (hem | ⟨e, he, hbe⟩) (hhm | ⟨h, hh, hbh⟩) hba <;>
      simp [fetchParticipant, tryHandle, tryAuthId, *]
  · intro hne hnh hni
    cases he : truthy u.email with
    | none =>
      simp [fetchParticipant, he, emailMiss,
        tryHandle_none_iff db u [] hnh hni]
    | some e =>
      obtain ⟨re, hre⟩ := hne e
      cases re with
      | some p => simp [fetchParticipant, he, hre, emailMiss]
      | none =>
        simp [fetchParticipant, he, hre, emailMiss,
          tryHandle_none_iff db u [Query.qEmail e] hnh hni]

/-- Concrete instance for the C2 witness: a participant matched by email. -/
def p2 : Participant :=
  { id := "p-2", auth_user_id := some "auth-2", email := some "a@x.com",
    github_username := none, is_admin := some false }

/-- Concrete backend for the C2 witness. -/
def db2 : Backend :=
  { byEmail := fun e => .ok (if e = "a@x.com" then some p2 else none),
    byHandle := fun _ => .ok none,
    byAuthId := fun _ => .ok none,
    activeAdminGrant := fun _ => .ok none,
    backfillResult := fun _ _ => .ok () }

/-- Concrete identity for the C2 witness. -/
def u2 : User :=
  { id := "auth-2", email := some "a@x.com", user_name := none }

/-- Witness for C2: on a backend where only the email strategy matches, the
lookup returns that participant after the email query alone. -/
theorem C2_lookup_order_witness :
    fetchParticipant db2 u2 = (some p2, [Query.qEmail "a@x.com"]) :=
  (C2_lookup_order db2 u2).1 "a@x.com" p2 (by decide) (by simp [db2])

/-- Claim C3: after a bootstrap resolution that validated a user — if no
lookup strategy matched and no active grant exists, the published status is
`no_profile` and the participant path contributed no admin privilege
(`isActualAdmin` and `participant` are untouched); and whenever an active
Admin Grant row exists for the identity, `isActualAdmin` is forced true and
the status forced `approved`, whatever the participant lookup returned. -/
theorem C3_resolution_outcomes (db : Backend) (sess : Session) (u : User)
    (s0 : AuthState) :
    ((fetchParticipant db u).1 = none → checkAdminUser db u.id = false →
      (initAuth db (.ok (some sess)) (.ok (some u)) s0).state.userStatus =
          some .no_profile
        ∧ (initAuth db (.ok (some sess)) (.ok (some u)) s0).state.isActualAdmin =
            s0.isActualAdmin
        ∧ (initAuth db (.ok (some sess)) (.ok (some u)) s0).state.participant =
            s0.participant)
    ∧ (∀ g, db.activeAdminGrant u.id = .ok (some g) →
        (initAuth db (.ok (some sess)) (.ok (some u)) s0).state.isActualAdmin = true
          ∧ (initAuth db (.ok (some sess)) (.ok (some u)) s0).state.userStatus =
              some .approved) := by
  constructor
  · intro hf hadm
    simp [initAuth, hf, finishInit, hadm]
  · intro g hg
    have hadm : checkAdminUser db u.id = true := by simp [checkAdminUser, hg]
    cases hf : (fetchParticipant db u).1 <;> simp [initAuth, hf, finishInit, hadm]

/-- Active grant row for the C3 witness. -/
def g3 : AdminGrant := { user_id := "auth-3" }

/-- Backend for the C3 witness: no participant anywhere, one active grant. -/
def db3 : Backend :=
  { byEmail := fun _ => .ok none,
    byHandle := fun _ => .ok none,
    byAuthId := fun _ => .ok none,
    activeAdminGrant := fun i => .ok (if i = "auth-3" then some g3 else none),
    backfillResult := fun _ _ => .ok () }

/-- Identity for the C3 witness. -/
def u3 : User := { id := "auth-3", email := none, user_name := none }

/-- Session for the C3 witness. -/
def sess3 : Session := { token := "t3", user := some u3 }

/-- Witness for C3: with no participant match but an active grant, the
bootstrap publishes admin status and an approved profile. -/
theorem C3_resolution_outcomes_witness :
    (initAuth db3 (.ok (some sess3)) (.ok (some u3)) initialState).state.isActualAdmin
        = true
      ∧ (initAuth db3 (.ok (some sess3)) (.ok (some u3)) initialState).state.userStatus
        = some .approved :=
  (C3_resolution_outcomes db3 sess3 u3 initialState).2 g3 rfl

/-- Claim C5: no exception from the identity-resolution path escapes.  If
any executed lookup inside `fetchParticipant` throws, the function returns
`null`; if the admin-grant query throws, `checkAdminUser` returns `false`;
and every `initAuth` run terminates with `isLoading = false` published
rather than a propagated exception. -/
theorem C5_no_exception_escapes (db : Backend) (u : User)
    (gs : Except Unit (Option Session)) (gu : Except Unit (Option User))
    (s0 : AuthState) :
    (∀ e, truthy u.email = some e → db.byEmail e = .error () →
      (fetchParticipant db u).1 = none)
    ∧ (∀ h, emailMiss db u → truthy u.user_name = some h →
        db.byHandle h = .error () → (fetchParticipant db u).1 = none)
    ∧ (emailMiss db u → handleMiss db u → db.byAuthId u.id = .error () →
        (fetchParticipant db u).1 = none)
    ∧ (∀ uid, db.activeAdminGrant uid = .error () →
        checkAdminUser db uid = false)
    ∧ (initAuth db gs gu s0).state.isLoading = false := by
  refine ⟨?_, ?_, ?_, ?_, initAuth_isLoading db gs gu s0⟩
  · intro e he hbe
    simp [fetchParticipant, he, hbe]
  · rintro h (hem | ⟨e, he, hbe⟩) hh hbh <;>
      simp [fetchParticipant, tryHandle, *]
  · rintro (hem | ⟨e, he, hbe⟩) (hhm | ⟨h, hh, hbh⟩) hba <;>
      simp [fetchParticipant, tryHandle, tryAuthId, *]
  · intro uid hg
    simp [checkAdminUser, hg]

/-- Backend for the C5 witness: every remote call throws. -/
def db5 : Backend :=
  { byEmail := fun _ => .error (),
    byHandle := fun _ => .error (),
    byAuthId := fun _ => .error (),
    activeAdminGrant := fun _ => .error (),
    backfillResult := fun _ _ => .error () }

/-- Identity for the C5 witness. -/
def u5 : User := { id := "auth-5", email := some "e@x.com", user_name := none }

/-- Witness for C5: on an always-throwing backend the lookup degrades to
`null` and the admin check to `false`. -/
theorem C5_no_exception_escapes_witness :
    (fetchParticipant db5 u5).1 = none ∧ checkAdminUser db5 "auth-5" = false :=
  ⟨(C5_no_exception_escapes db5 u5 (.ok none) (.ok none) initialState).1
      "e@x.com" rfl rfl,
   (C5_no_exception_escapes db5 u5 (.ok none) (.ok none) initialState).2.2.2.1
      "auth-5" rfl⟩

lemma tryAuthId_log (db : Backend) (u : User) (log : List Query) :
    (tryAuthId db u log).2 = log ++ [Query.qAuthId u.id] := by
  cases h : db.byAuthId u.id with
  | error e => simp [tryAuthId, h]
  | ok r => cases r <;> simp [tryAuthId, h]

lemma mem_tryHandle_log (db : Backend) (u : User) (log : List Query) (q : Query)
    (hq : q ∈ (tryHandle db u log).2) :
    q ∈ log ∨ (∃ h, q = Query.qHandle h) ∨ q = Query.qAuthId u.id := by
  cases hh : truthy u.user_name with
  | none =>
    simp only [tryHandle, hh] at hq
    rw [tryAuthId_log] at hq
    rcases List.mem_append.mp hq with h1 | h1
    · exact Or.inl h1
    · exact Or.inr (Or.inr (by simpa using h1))
  | some h =>
    simp only [tryHandle, hh] at hq
    cases hb : db.byHandle h with
    | error e =>
      simp [hb] at hq
      rcases hq with h1 | h1
      · exact Or.inl h1
      · exact Or.inr (Or.inl ⟨h, h1⟩)
    | ok r =>
      cases r with
      | some p =>
        simp [hb] at hq
        rcases hq with h1 | h1
        · exact Or.inl h1
        · exact Or.inr (Or.inl ⟨h, h1⟩)
      | none =>
        simp only [hb] at hq
        rw [tryAuthId_log] at hq
        rcases List.mem_append.mp hq with h1 | h1
        · rcases List.mem_append.mp h1 with h2 | h2
          · exact Or.inl h2
          · exact Or.inr (Or.inl ⟨h, by simpa using h2⟩)
        · exact Or.inr (Or.inr (by simpa using h1))

lemma mem_fetch_log (db : Backend) (u : User) (q : Query)
    (hq : q ∈ (fetchParticipant db u).2) :
    (∃ e, q = Query.qEmail e) ∨ (∃ h, q = Query.qHandle h) ∨
      q = Query.qAuthId u.id := by
  cases he : truthy u.email with
  | none =>
    simp only [fetchParticipant, he] at hq
    rcases mem_tryHandle_log db u [] q hq with h1 | h1
    · simp at h1
    · exact Or.inr h1
  | some e =>
    cases hb : db.byEmail e with
    | error err =>
      simp [fetchParticipant, he, hb] at hq
      exact Or.inl ⟨e, hq⟩
    | ok r =>
      cases r with
      | some p =>
        simp [fetchParticipant, he, hb] at hq
        exact Or.inl ⟨e, hq⟩
      | none =>
        simp only [fetchParticipant, he, hb] at hq
        rcases mem_tryHandle_log db u [Query.qEmail e] q hq with h1 | h1
        · exact Or.inl ⟨e, by simpa using h1⟩
        · exact Or.inr h1

lemma qAdmin_not_mem_fetch (db : Backend) (u : User) (uid : String) :
    Query.qAdmin uid ∉ (fetchParticipant db u).2 := by
  intro hq
  rcases mem_fetch_log db u _ hq with ⟨e, he⟩ | ⟨h, hh⟩ | hi <;> simp_all

lemma qBackfill_not_mem_fetch (db : Backend) (u : User) (pid aid : String) :
    Query.qBackfill pid aid ∉ (fetchParticipant db u).2 := by
  intro hq
  rcases mem_fetch_log db u _ hq with ⟨e, he⟩ | ⟨h, hh⟩ | hi <;> simp_all

/-- Claim C8: on `SIGNED_OUT` the listener clears user, session,
participant, admin flag and status synchronously, issuing no backend
queries; on `SIGNED_IN` with a session user it publishes the new session
and user — a fact that holds for every backend, including one whose every
call throws, so a failing re-resolution never reverts them — and then
re-runs the full resolution (the queries issued are exactly the
participant-lookup queries followed by the admin-grant check). -/
theorem C8_listener (db : Backend) (ns : Option Session) (sess : Session)
    (u : User) (s0 : AuthState) :
    (onAuthChange db .signedOut ns s0 =
      ({ s0 with session := none, user := none, participant := none,
                 isActualAdmin := false, userStatus := none }, []))
    ∧ (sess.user = some u →
        (onAuthChange db .signedIn (some sess) s0).1.session = some sess
        ∧ (onAuthChange db .signedIn (some sess) s0).1.user = some u
        ∧ (onAuthChange db .signedIn (some sess) s0).2 =
            (fetchParticipant db u).2 ++ [Query.qAdmin u.id]) := by
  refine ⟨rfl, ?_⟩
  intro hu
  cases hf : (fetchParticipant db u).1 <;>
    cases hadm : checkAdminUser db u.id <;>
      simp [onAuthChange, hu, hf, hadm]

/-- Witness for C8: on the all-throwing backend `db5`, a `SIGNED_IN` event
still leaves the freshly published session and user in place. -/
theorem C8_listener_witness :
    (onAuthChange db5 .signedIn (some { token := "t5", user := some u5 })
        initialState).1.session = some { token := "t5", user := some u5 }
      ∧ (onAuthChange db5 .signedIn (some { token := "t5", user := some u5 })
          initialState).1.user = some u5 :=
  ⟨((C8_listener db5 none { token := "t5", user := some u5 } u5
      initialState).2 rfl).1,
   ((C8_listener db5 none { token := "t5", user := some u5 } u5
      initialState).2 rfl).2.1⟩

/-- Claim C10: `refreshParticipant` is a frame-preserving refresh.  With no
user set it is a silent no-op; with a user set, if the lookup returns no
participant the whole state is left exactly as it was (no downgrade to
`no_profile`, no cleared participant); it never issues the admin-grant
query; and `isActualAdmin` can change only when the lookup actually found a
participant. -/
theorem C10_refresh_frame (db : Backend) (s0 : AuthState) (u : User) :
    (s0.user = none → refreshParticipant db s0 = (s0, []))
    ∧ (s0.user = some u → (fetchParticipant db u).1 = none →
        (refreshParticipant db s0).1 = s0)
    ∧ (∀ uid, Query.qAdmin uid ∉ (refreshParticipant db s0).2)
    ∧ ((refreshParticipant db s0).1.userStatus = s0.userStatus ∨
        (refreshParticipant db s0).1.userStatus = some .approved)
    ∧ ((refreshParticipant db s0).1.isActualAdmin ≠ s0.isActualAdmin →
        ∃ u2 p, s0.user = some u2 ∧ (fetchParticipant db u2).1 = some p) := by
  refine ⟨?_, ?_, ?_, ?_, ?_⟩
  · intro hu
    simp [refreshParticipant, hu]
  · intro hu hf
    simp [refreshParticipant, hu, hf]
  · intro uid hq
    cases hu : s0.user with
    | none => simp [refreshParticipant, hu] at hq
    | some u2 =>
      cases hf : (fetchParticipant db u2).1 <;>
        simp only [refreshParticipant, hu, hf] at hq <;>
        exact qAdmin_not_mem_fetch db u2 uid hq
  · cases hu : s0.user with
    | none => exact Or.inl (by simp [refreshParticipant, hu])
    | some u2 =>
      cases hf : (fetchParticipant db u2).1 with
      | none => exact Or.inl (by simp [refreshParticipant, hu, hf])
      | some p => exact Or.inr (by simp [refreshParticipant, hu, hf])
  · intro hne
    cases hu : s0.user with
    | none => simp [refreshParticipant, hu] at hne
    | some u2 =>
      cases hf : (fetchParticipant db u2).1 with
      | none => simp [refreshParticipant, hu, hf] at hne
      | some p => exact ⟨u2, p, rfl, hf⟩

/-- Witness for C10: with a user set and a backend holding no participant
rows, a refresh leaves the state (including a previously grant-derived
admin flag) untouched. -/
theorem C10_refresh_frame_witness :
    (refreshParticipant db3
        { initialState with user := some u3, isActualAdmin := true,
                            userStatus := some .approved }).1 =
      { initialState with user := some u3, isActualAdmin := true,
                          userStatus := some .approved } :=
  (C10_refresh_frame db3
      { initialState with user := some u3, isActualAdmin := true,
                          userStatus := some .approved } u3).2.1 rfl rfl

/-- Participant for the C4 instances: matched by email, link absent. -/
def p4 : Participant :=
  { id := "p-4", auth_user_id := none, email := some "b@x.com",
    github_username := none, is_admin := some false }

/-- Backend for the C4 instances: `p4` is found by email. -/
def db4 : Backend :=
  { byEmail := fun e => .ok (if e = "b@x.com" then some p4 else none),
    byHandle := fun _ => .ok none,
    byAuthId := fun _ => .ok none,
    activeAdminGrant := fun _ => .ok none,
    backfillResult := fun _ _ => .ok () }

/-- Identity for the C4 instances. -/
def u4 : User := { id := "auth-4", email := some "b@x.com", user_name := none }

/-- Session for the C4 instances. -/
def sess4 : Session := { token := "t4", user := some u4 }

/-- Counterexample to C4 as stated: a `SIGNED_IN` re-resolution finds a
participant whose stored link is absent, yet issues zero backfill updates —
the backfill is not part of every resolution run. -/
theorem C4_backfill_counterexample :
    (fetchParticipant db4 u4).1 = some p4
    ∧ truthy p4.auth_user_id = none
    ∧ (onAuthChange db4 .signedIn (some sess4) initialState).2.count
        (Query.qBackfill p4.id u4.id) = 0 := by
  refine ⟨?_, rfl, ?_⟩ <;> rfl

/-- Claim C4 (amended): only the bootstrap resolution backfills.  When
`initAuth` validates a user and finds a participant whose stored link is
absent, its query log contains exactly one backfill update (and the run is
wholly insensitive to the update's outcome — the result is never read, so
no failure surfaces and nothing is retried); when the link is present no
backfill is issued; and a `SIGNED_IN` re-resolution never issues one. -/
theorem C4_backfill_bootstrap_only (db db2 : Backend) (sess : Session)
    (u : User) (s0 : AuthState) (p : Participant) :
    ((fetchParticipant db u).1 = some p → truthy p.auth_user_id = none →
      (initAuth db (.ok (some sess)) (.ok (some u)) s0).log =
          (fetchParticipant db u).2 ++
            [Query.qBackfill p.id u.id, Query.qAdmin u.id]
        ∧ (initAuth db (.ok (some sess)) (.ok (some u)) s0).log.count
            (Query.qBackfill p.id u.id) = 1)
    ∧ ((fetchParticipant db u).1 = some p → truthy p.auth_user_id ≠ none →
        ∀ pid aid, Query.qBackfill pid aid ∉
          (initAuth db (.ok (some sess)) (.ok (some u)) s0).log)
    ∧ (∀ pid aid, Query.qBackfill pid aid ∉
        (onAuthChange db .signedIn (some sess) s0).2)
    ∧ (db.byEmail = db2.byEmail → db.byHandle = db2.byHandle →
        db.byAuthId = db2.byAuthId →
        db.activeAdminGrant = db2.activeAdminGrant →
        initAuth db (.ok (some sess)) (.ok (some u)) s0 =
          initAuth db2 (.ok (some sess)) (.ok (some u)) s0) := by
  refine ⟨?_, ?_, ?_, ?_⟩
  · intro hf ht
    have hlog : (initAuth db (.ok (some sess)) (.ok (some u)) s0).log =
        (fetchParticipant db u).2 ++
          [Query.qBackfill p.id u.id, Query.qAdmin u.id] := by
      simp [initAuth, hf, ht, finishInit]
    refine ⟨hlog, ?_⟩
    rw [hlog, List.count_append]
    rw [List.count_eq_zero.mpr (qBackfill_not_mem_fetch db u p.id u.id)]
    simp
  · intro hf ht pid aid hq
    simp only [initAuth, hf, ht, if_neg ht, finishInit] at hq
    rcases List.mem_append.mp hq with h1 | h1
    · rcases List.mem_append.mp h1 with h2 | h2
      · exact qBackfill_not_mem_fetch db u pid aid h2
      · simp at h2
    · simp at h1
  · intro pid aid hq
    cases hu : sess.user with
    | none => simp [onAuthChange, hu] at hq
    | some u2 =>
      cases hf : (fetchParticipant db u2).1 <;>
        cases hadm : checkAdminUser db u2.id <;>
          simp only [onAuthChange, hu, hf, hadm] at hq <;>
          rcases List.mem_append.mp hq with h1 | h1 <;>
          first
            | exact qBackfill_not_mem_fetch db u2 pid aid h1
            | simp at h1
  · intro h1 h2 h3 h4
    obtain ⟨be, bh, ba, ag, bf⟩ := db
    obtain ⟨be2, bh2, ba2, ag2, bf2⟩ := db2
    simp only at h1 h2 h3 h4
    subst h1 h2 h3 h4
    rfl

/-- Witness for the amended C4: on the concrete bootstrap run the query log
carries exactly one backfill for the matched, unlinked participant. -/
theorem C4_backfill_bootstrap_only_witness :
    (initAuth db4 (.ok (some sess4)) (.ok (some u4)) initialState).log =
        [Query.qEmail "b@x.com", Query.qBackfill "p-4" "auth-4",
         Query.qAdmin "auth-4"]
      ∧ (initAuth db4 (.ok (some sess4)) (.ok (some u4)) initialState).log.count
          (Query.qBackfill "p-4" "auth-4") = 1 := by
  have h := (C4_backfill_bootstrap_only db4 db4 sess4 u4 initialState p4).1
      rfl rfl
  exact ⟨by rw [h.1]; rfl, h.2⟩

end Dash
